import Mathlib

/-!
Shallow embedding of the cerebunit repository (two Python source files):

* `cerebunit/statistics/stat_scores/zSignScore.py` — the class
  `ZScoreForSignTest` with its classmethod `compute`;
* `cerebunit/validation_tests/cells/Purkinje/test_for_soma_Rin.py` — the class
  `SomaRinTest` with `validate_observation` and `compute_score`.

Numbers from the Python floats are modelled as rationals; values of the form
`a / sqrt b` (which are irrational in general) are kept symbolically as a pair
`(a, b)`.  Fallible Python code (raised exceptions) is modelled with
`Except PyErr`.
-/

/-- Python exceptions that the modelled code can raise.  `nameError` is the
resolution failure for an unbound name (here: `self` inside a classmethod);
`observationError` is `sciunit.ObservationError`; `valueError` is numpy's
broadcast failure; `keyError` a missing dictionary key; `unitMismatch` a
`quantities` rewrap with an incompatible unit. -/
inductive PyErr
  | nameError
  | observationError
  | valueError
  | keyError
  | unitMismatch
deriving DecidableEq

/-- A value of the exact form `num / sqrt radicand` with `radicand > 0`,
kept symbolically (the Python code computes it as a float). -/
structure SqrtDiv where
  num : ℚ
  radicand : ℚ
deriving DecidableEq

/-- Result of the float expression `(splus - n_u/2) / np.sqrt(n_u/4)`.
IEEE-754 semantics at this expression: `sqrt 0 = 0`, `0/0 = NaN`, and
`x/0 = +inf` for `x > 0` (the infinite case is in fact unreachable, because
`splus = 0` whenever `n_u = 0`). -/
inductive ZRes
  | nan
  | posInf
  | val (v : SqrtDiv)
deriving DecidableEq

/-- The float value of `(splus - n_u/2) / np.sqrt(n_u/4)` (zSignScore.py,
line 82, right-hand side).  The divisor `sqrt(n_u/4)` is zero exactly when
`n_u = 0`; in that case the count `splus` is the numerator (`splus - 0/2`)
and the float quotient is NaN for `splus = 0` and `+inf` otherwise. -/
def zExpr (splus : ℕ) (nu : ℕ) : ZRes :=
  if nu = 0 then (if splus = 0 then .nan else .posInf)
  else .val ⟨(splus : ℚ) - (nu : ℚ) / 2, (nu : ℚ) / 4⟩

/-- The observation dictionary as `ZScoreForSignTest.compute` uses it: the
method only reads the key `"raw_data"`, a list of numbers (docstring of
`compute`). -/
structure ZObservation where
  raw_data : List ℚ
deriving DecidableEq

/-- The `prediction` argument of `ZScoreForSignTest.compute`.  The code
branches on `type(prediction) is float or type(prediction) is int`
(line 75): a plain Python scalar selects single-sample mode; anything else
— a unit-carrying scalar (`quantities.Quantity`, as passed by
`SomaRinTest.compute_score`) or a sequence — takes the paired branch. -/
inductive ZPrediction
  | scalar (q : ℚ)
  | quantScalar (q : ℚ)
  | seq (l : List ℚ)
deriving DecidableEq

/-- numpy elementwise subtraction `d - p` of 1-d arrays, with numpy's
broadcast rule: the lengths agree, or one side has length 1; otherwise a
`ValueError` is raised. -/
def npSub (d p : List ℚ) : Except PyErr (List ℚ) :=
  if d.length = p.length then .ok (List.zipWith (fun x y => x - y) d p)
  else
    match p with
    | [q] => .ok (d.map (fun x => x - q))
    | _ =>
      match d with
      | [x] => .ok (p.map (fun y => x - y))
      | _ => .error .valueError

/-- Lines 74-79 of zSignScore.py: build `data` and the null value.  In the
scalar branch `data = raw_data`, null `= prediction`; otherwise
`data = data - np.array(prediction)` (a 0-d array broadcast for a
`Quantity` scalar) and the null is reassigned to `0.`. -/
def zDataNull (obs : ZObservation) : ZPrediction → Except PyErr (List ℚ × ℚ)
  | .scalar q => .ok (obs.raw_data, q)
  | .quantScalar q =>
      match npSub obs.raw_data [q] with
      | .ok d => .ok (d, 0)
      | .error e => .error e
  | .seq p =>
      match npSub obs.raw_data p with
      | .ok d => .ok (d, 0)
      | .error e => .error e

/-- Line 80: `splus = ( data < prediction ).sum()` — the number of entries of
`data` strictly below the null value. -/
def splusOf (data : List ℚ) (null : ℚ) : ℕ :=
  data.countP (fun x => decide (x < null))

/-- Line 81: `n_u = ( data != prediction ).sum()` — the number of entries of
`data` different from the null value. -/
def nuOf (data : List ℚ) (null : ℚ) : ℕ :=
  data.countP (fun x => decide (x ≠ null))

/-- The value of the right-hand side of line 82 of zSignScore.py,
`(splus - (n_u/2)) / np.sqrt(n_u/4)`, for the data and null value built by
lines 74-79. -/
def zScoreValue (obs : ZObservation) (pred : ZPrediction) : Except PyErr ZRes :=
  match zDataNull obs pred with
  | .ok dn => .ok (zExpr (splusOf dn.1 dn.2) (nuOf dn.1 dn.2))
  | .error e => .error e

/-- `ZScoreForSignTest.compute` (zSignScore.py, lines 58-83).  The method is
a `@classmethod` whose first parameter is `cls`; line 82 executes
`self.score = (splus - (n_u/2)) / np.sqrt(n_u/4)`.  Python evaluates the
right-hand side first, then resolves the name `self` for the attribute
store; `self` is unbound in the method's scope, so the statement raises
`NameError` and line 83's `return self.score` is never reached. -/
def ZScoreForSignTest.compute (obs : ZObservation) (pred : ZPrediction) :
    Except PyErr ZRes :=
  match zScoreValue obs pred with
  | .ok _ => .error .nameError
  | .error e => .error e

/-- `true` when execution of `compute` reaches the line-82 assignment, i.e.
when building `data` did not itself raise (a broadcast `ValueError`). -/
def reachesAssignment (obs : ZObservation) (pred : ZPrediction) : Bool :=
  match zDataNull obs pred with
  | .ok _ => true
  | .error _ => false

theorem zScoreValue_scalar (raw : List ℚ) (q : ℚ) :
    zScoreValue ⟨raw⟩ (.scalar q) = .ok (zExpr (splusOf raw q) (nuOf raw q)) := rfl

theorem compute_raises_of_reaches (obs : ZObservation) (pred : ZPrediction)
    (h : reachesAssignment obs pred = true) :
    ZScoreForSignTest.compute obs pred = .error .nameError := by
  unfold ZScoreForSignTest.compute zScoreValue
  unfold reachesAssignment at h
  cases hd : zDataNull obs pred with
  | ok dn => rfl
  | error e => rw [hd] at h; exact absurd h (by simp)

theorem compute_never_ok (obs : ZObservation) (pred : ZPrediction) (z : ZRes) :
    ZScoreForSignTest.compute obs pred ≠ .ok z := by
  unfold ZScoreForSignTest.compute
  cases hv : zScoreValue obs pred with
  | ok v => simp
  | error e => simp

theorem npSub_same_length (d p : List ℚ) (h : d.length = p.length) :
    npSub d p = .ok (List.zipWith (fun x y => x - y) d p) := by
  unfold npSub
  rw [if_pos h]

theorem zDataNull_seq (raw p : List ℚ) (h : raw.length = p.length) :
    zDataNull ⟨raw⟩ (.seq p) =
      .ok (List.zipWith (fun x y => x - y) raw p, 0) := by
  show (match npSub raw p with
        | .ok d => Except.ok (d, (0 : ℚ))
        | .error e => Except.error e) = _
  rw [npSub_same_length raw p h]

/-- C9: `ZScoreForSignTest.compute` is a classmethod whose first parameter is
`cls`, yet line 82 assigns to an attribute of the unbound name `self`; every
call that reaches that assignment raises a name-resolution error
(`NameError`), and no call ever returns the z-statistic normally. -/
theorem c9_compute_always_raises :
    (∀ (obs : ZObservation) (pred : ZPrediction),
       reachesAssignment obs pred = true →
       ZScoreForSignTest.compute obs pred = .error .nameError) ∧
    (∀ (obs : ZObservation) (pred : ZPrediction) (z : ZRes),
       ZScoreForSignTest.compute obs pred ≠ .ok z) :=
  ⟨compute_raises_of_reaches, compute_never_ok⟩

theorem c9_compute_always_raises_witness :
    ZScoreForSignTest.compute ⟨[10, 12, 9, 15, 11]⟩ (.scalar 12) =
      .error .nameError :=
  c9_compute_always_raises.1 ⟨[10, 12, 9, 15, 11]⟩ (.scalar 12) (by decide)

/-- C1: for a scalar (float or int) prediction, the z-statistic expression
that `compute` evaluates is `(s_plus - n_u/2) / sqrt(n_u/4)` with
`s_plus` the count of raw-data values strictly below the prediction and
`n_u` the count of values different from it — but `compute` itself then
raises `NameError` (unbound `self`) instead of returning that value. -/
theorem c1_scalar_mode_formula (raw : List ℚ) (q : ℚ) :
    zScoreValue ⟨raw⟩ (.scalar q) = .ok (zExpr (splusOf raw q) (nuOf raw q)) ∧
    ZScoreForSignTest.compute ⟨raw⟩ (.scalar q) = .error .nameError :=
  ⟨rfl, compute_raises_of_reaches ⟨raw⟩ (.scalar q) rfl⟩

/-- C2: in paired mode (a prediction sequence of the same length as
`raw_data`) the z-statistic expression equals the one of single-sample mode
applied to the elementwise differences with null value `0`; both calls,
however, end in the `NameError` of line 82 rather than returning. -/
theorem c2_paired_equals_diffs (raw p : List ℚ) (h : raw.length = p.length) :
    zScoreValue ⟨raw⟩ (.seq p) =
      zScoreValue ⟨List.zipWith (fun x y => x - y) raw p⟩ (.scalar 0) ∧
    ZScoreForSignTest.compute ⟨raw⟩ (.seq p) = .error .nameError := by
  have h1 := zDataNull_seq raw p h
  constructor
  · unfold zScoreValue
    rw [h1]
    rfl
  · apply compute_raises_of_reaches
    unfold reachesAssignment
    rw [h1]

theorem c2_paired_equals_diffs_witness :
    zScoreValue ⟨[10, 12, 9, 15, 11]⟩ (.seq [11, 11, 11, 11, 11]) =
      zScoreValue ⟨List.zipWith (fun x y => x - y) [10, 12, 9, 15, 11]
        [11, 11, 11, 11, 11]⟩ (.scalar 0) ∧
    ZScoreForSignTest.compute ⟨[10, 12, 9, 15, 11]⟩ (.seq [11, 11, 11, 11, 11]) =
      .error .nameError :=
  c2_paired_equals_diffs [10, 12, 9, 15, 11] [11, 11, 11, 11, 11] (by decide)

/-- C3 counterexample: on `raw_data = [10, 12, 9, 15, 11]` with prediction
`12.0` the value `12` ties with the null, so the code's `n_u` is `4`, not
the claimed `5`, and the computed pair is `(3 - 4/2) / sqrt(4/4) = 1`, not
the claimed `(3 - 5/2) / sqrt(5/4)`. -/
theorem c3_counterexample :
    nuOf [10, 12, 9, 15, 11] 12 = 4 ∧ ¬ nuOf [10, 12, 9, 15, 11] 12 = 5 ∧
    zScoreValue ⟨[10, 12, 9, 15, 11]⟩ (.scalar 12) = .ok (.val ⟨1, 1⟩) ∧
    ¬ (SqrtDiv.mk 1 1) = ⟨1/2, 5/4⟩ := by
  refine ⟨by decide, by decide, ?_, ?_⟩
  · rw [zScoreValue_scalar]
    have h1 : splusOf [10, 12, 9, 15, 11] 12 = 3 := by decide
    have h2 : nuOf [10, 12, 9, 15, 11] 12 = 4 := by decide
    rw [h1, h2]
    norm_num [zExpr]
  · intro hc
    rw [SqrtDiv.mk.injEq] at hc
    norm_num at hc

/-- C3 amended: on `raw_data = [10, 12, 9, 15, 11]` and scalar prediction
`12.0` the code's counts are `s_plus = 3` and `n_u = 4` (the tie `12` is
excluded), so the z-statistic expression evaluates to
`(3 - 2) / sqrt 1 = 1`; `compute` then raises `NameError` instead of
returning it. -/
theorem c3_amended :
    splusOf [10, 12, 9, 15, 11] 12 = 3 ∧ nuOf [10, 12, 9, 15, 11] 12 = 4 ∧
    zScoreValue ⟨[10, 12, 9, 15, 11]⟩ (.scalar 12) = .ok (.val ⟨1, 1⟩) ∧
    ZScoreForSignTest.compute ⟨[10, 12, 9, 15, 11]⟩ (.scalar 12) =
      .error .nameError := by
  refine ⟨by decide, by decide, ?_,
    compute_raises_of_reaches ⟨[10, 12, 9, 15, 11]⟩ (.scalar 12) rfl⟩
  rw [zScoreValue_scalar]
  have h1 : splusOf [10, 12, 9, 15, 11] 12 = 3 := by decide
  have h2 : nuOf [10, 12, 9, 15, 11] 12 = 4 := by decide
  rw [h1, h2]
  norm_num [zExpr]

/-- C4: when every raw-data value equals the null value, `n_u = 0` and the
z-statistic expression is the float `0/0`, i.e. NaN — not `0`; but
`compute` then raises `NameError` (unbound `self`), so even that NaN is
never surfaced as a result. -/
theorem c4_all_ties_nan (raw : List ℚ) (q : ℚ) (h : ∀ x ∈ raw, x = q) :
    zScoreValue ⟨raw⟩ (.scalar q) = .ok .nan ∧
    (∀ v : SqrtDiv, zScoreValue ⟨raw⟩ (.scalar q) ≠ .ok (.val v)) ∧
    ZScoreForSignTest.compute ⟨raw⟩ (.scalar q) = .error .nameError := by
  have hnu : nuOf raw q = 0 := by
    unfold nuOf
    rw [List.countP_eq_zero]
    intro a ha
    simp [h a ha]
  have hsp : splusOf raw q = 0 := by
    unfold splusOf
    rw [List.countP_eq_zero]
    intro a ha
    simp [h a ha]
  have hval : zScoreValue ⟨raw⟩ (.scalar q) = .ok .nan := by
    rw [zScoreValue_scalar, hnu, hsp]
    rfl
  refine ⟨hval, ?_, compute_raises_of_reaches ⟨raw⟩ (.scalar q) rfl⟩
  intro v hv
  rw [hval] at hv
  exact absurd hv (by simp)

theorem c4_all_ties_nan_witness :
    zScoreValue ⟨[7, 7]⟩ (.scalar 7) = .ok .nan ∧
    (∀ v : SqrtDiv, zScoreValue ⟨[7, 7]⟩ (.scalar 7) ≠ .ok (.val v)) ∧
    ZScoreForSignTest.compute ⟨[7, 7]⟩ (.scalar 7) = .error .nameError :=
  c4_all_ties_nan [7, 7] 7 (by decide)

/-!
Embedding of `test_for_soma_Rin.py`.  Python `str` objects are modelled with
their text together with an object identity, because the source compares
unit strings with `is not` (object identity), not `!=` (equality).  The
dictionary `observation` is modelled as a record of optional fields; a
missing key is `none`.  Two notes on fidelity to the source text:

* line 95 of the source reads `"current_unit": not in
  observation["protocol_parameters"]` — a stray colon that makes the module
  a Python `SyntaxError`; it is embedded as the evident membership test
  `"current_unit" not in observation["protocol_parameters"]` (the module as
  shipped cannot be imported at all, which is recorded with claim C5);
* line 137 (inside `generate_prediction`) has a mismatched bracket, a second
  `SyntaxError`; `generate_prediction` only wraps the external model runner
  and is modelled abstractly below.
-/

/-- A Python string object: its text and its object identity (`id`).  The
operator `is` compares identities; `==` compares text. -/
structure PyStr where
  val : String
  objId : ℕ
deriving DecidableEq

/-- Python `is`: object identity. -/
def pyIs (a b : PyStr) : Bool := a.objId == b.objId

/-- The interned literal `"Mohm"` of the module (line 89). -/
def mohmLiteral : PyStr := ⟨"Mohm", 0⟩

/-- The interned literal `"nA"` of the module (line 96). -/
def nALiteral : PyStr := ⟨"nA", 1⟩

/-- The interned literal `"ohm"` of the module (line 99). -/
def ohmLiteral : PyStr := ⟨"ohm", 2⟩

/-- A number as stored in the observation dictionary: a bare Python float,
or a `quantities.Quantity` scalar carrying a unit string. -/
inductive NumField
  | plain (q : ℚ)
  | quant (q : ℚ) (u : String)
deriving DecidableEq

/-- The `raw_data` entry: a bare list of floats, or a `quantities.Quantity`
array carrying a unit string. -/
inductive RawField
  | plainList (l : List ℚ)
  | quantList (l : List ℚ) (u : String)
deriving DecidableEq

/-- The nested `protocol_parameters` record (spec and lines 92-96). -/
structure ProtocolParams where
  temperature : Option ℚ
  initial_resting_Vm : Option ℚ
  current_amplitude : Option ℚ
  current_unit : Option PyStr
deriving DecidableEq

/-- The value `num / sqrt radicand` carrying a unit — the form of
`observation["SD"] / numpy.sqrt(observation["sample_size"])` wrapped by
`pq.Quantity` (lines 110-112). -/
structure SEVal where
  num : ℚ
  radicand : ℕ
  unit : String
deriving DecidableEq

/-- The observation dictionary of `SomaRinTest`.  `objId` is the identity of
the dictionary object itself (Python `id`), preserved by in-place mutation;
each optional field is a key that may be absent. -/
structure SomaObservation where
  objId : ℕ
  mean : Option NumField
  SD : Option NumField
  sample_size : Option ℕ
  units : Option PyStr
  raw_data : Option RawField
  protocol_parameters : Option ProtocolParams
  standard_error : Option SEVal
  median : Option ℚ
  celsius : Option ℚ
  v_init : Option ℚ
  amp : Option ℚ
deriving DecidableEq

/-- Lines 85-97 of test_for_soma_Rin.py: the disjunction guarding
`raise sciunit.ObservationError`.  Python's short-circuit `or` makes the
`is not` comparisons reachable only when the corresponding key is present,
which the nested matches mirror; line 95's stray colon is read as the
evident membership test (see the section comment). -/
def observationCheckFails (o : SomaObservation) : Bool :=
  o.mean.isNone || o.SD.isNone || o.sample_size.isNone ||
  (match o.units with
   | none => true
   | some u => !(pyIs u mohmLiteral)) ||
  o.raw_data.isNone ||
  (match o.protocol_parameters with
   | none => true
   | some pp =>
       pp.temperature.isNone || pp.initial_resting_Vm.isNone ||
       pp.current_amplitude.isNone ||
       (match pp.current_unit with
        | none => true
        | some cu => !(pyIs cu nALiteral)))

/-- `x * c` on a number or a `Quantity` (scalar multiplication keeps the
unit). -/
def numTimes (c : ℚ) : NumField → NumField
  | .plain q => .plain (q * c)
  | .quant q u => .quant (q * c) u

/-- `pq.Quantity(x, units=u)`: wraps a bare number; rewrapping an existing
quantity with its own unit keeps the magnitude; any other unit would invoke
pq's unit conversion, which never happens in this module and is modelled as
an error. -/
def pqQuantityNum (x : NumField) (u : String) : Except PyErr NumField :=
  match x with
  | .plain q => .ok (.quant q u)
  | .quant q v => if v = u then .ok (.quant q u) else .error .unitMismatch

/-- `[ x*c for x in raw ]` on a bare list or a `Quantity` array. -/
def rawTimes (c : ℚ) : RawField → RawField
  | .plainList l => .plainList (l.map (fun x => x * c))
  | .quantList l u => .quantList (l.map (fun x => x * c)) u

/-- `pq.Quantity(list, units=u)`, as `pqQuantityNum` but for the array. -/
def pqQuantityRaw (x : RawField) (u : String) : Except PyErr RawField :=
  match x with
  | .plainList l => .ok (.quantList l u)
  | .quantList l v => if v = u then .ok (.quantList l u) else .error .unitMismatch

/-- The magnitudes of a raw-data entry. -/
def rawMags : RawField → List ℚ
  | .plainList l => l
  | .quantList l _ => l

def numMag : NumField → ℚ
  | .plain q => q
  | .quant q _ => q

def numUnit : NumField → Option String
  | .plain _ => none
  | .quant _ u => some u

/-- `pq.Quantity( SD_quantity / numpy.sqrt(sample_size), units=u )`
(lines 110-112): the division of a quantity by a float keeps its unit, and
the rewrap follows the `pqQuantityNum` rule. -/
def pqQuantitySE (x : ℚ) (rad : ℕ) (xu : Option String) (u : String) :
    Except PyErr SEVal :=
  match xu with
  | none => .ok ⟨x, rad, u⟩
  | some v => if v = u then .ok ⟨x, rad, u⟩ else .error .unitMismatch

/-- Insertion into a sorted list, for `numpy.median`. -/
def insertSorted (x : ℚ) : List ℚ → List ℚ
  | [] => [x]
  | y :: ys => if x ≤ y then x :: y :: ys else y :: insertSorted x ys

def sortedQ (l : List ℚ) : List ℚ := l.foldr insertSorted []

/-- `numpy.median`: the middle element of the sorted data for odd length,
the mean of the two middle elements for even length.  (numpy's median of an
empty array is NaN; the empty case is never reached here because
validation has already required the `raw_data` key.) -/
def npMedian (l : List ℚ) : ℚ :=
  let s := sortedQ l
  let n := l.length
  if n % 2 = 1 then s.getD (n / 2) 0
  else (s.getD (n / 2 - 1) 0 + s.getD (n / 2) 0) / 2

/-- The `score_type` attribute of `SomaRinTest`: the placeholder
`sciunit.scores.NoneScore` (line 73), replaced during validation by the
class `TScore` (line 109) or `ZScore = ZScoreForSignTest` (line 114). -/
inductive ScoreTypeTag
  | NoneScore
  | TScore
  | ZScore
deriving DecidableEq

/-- The instance attributes that `validate_observation` leaves on the test
object: `self.observation` (the same dictionary the caller passed, line 98),
`self.datacond` (line 106) and `self.score_type` (lines 109 and 114). -/
structure SomaRinState where
  observation : SomaObservation
  datacond : Bool
  score_type : ScoreTypeTag
deriving DecidableEq

def liftOpt {α : Type} (o : Option α) (e : PyErr) : Except PyErr α :=
  match o with
  | some a => .ok a
  | none => .error e

/-- Lines 98-121 of `validate_observation`, after the guard has passed.
`self.observation = observation` (line 98) aliases the caller's dictionary —
no copy is made — so every update below mutates the caller's own record;
the record's `objId` is untouched by field updates.  The updates follow the
source order: `units` is set to the literal `"ohm"` first (line 99), then
`mean`, `SD` and `raw_data` are read (still their original values at their
lines), scaled by `1E6` and rewrapped (lines 100-105); `NecessaryForHTMeans
.ask` is consulted once with the original `sample_size` and the converted
`raw_data` (lines 106-107); the branch adds `standard_error` (from the
already-converted `SD` and already-rewritten `units`) or `median`
(lines 108-115); finally `celsius`, `v_init` and `amp` are copied out of the
untouched `protocol_parameters` (lines 117-119). -/
def validateBody (ask : ℕ → List ℚ → Bool) (observation : SomaObservation) :
    Except PyErr SomaRinState := do
  let o1 := { observation with units := some ohmLiteral }
  let mean0 ← liftOpt o1.mean .keyError
  let mean1 ← pqQuantityNum (numTimes 1000000 mean0) ("ohm")
  let o2 := { o1 with mean := some mean1 }
  let sd0 ← liftOpt o2.SD .keyError
  let sd1 ← pqQuantityNum (numTimes 1000000 sd0) ("ohm")
  let o3 := { o2 with SD := some sd1 }
  let raw0 ← liftOpt o3.raw_data .keyError
  let raw1 ← pqQuantityRaw (rawTimes 1000000 raw0) ("ohm")
  let o4 := { o3 with raw_data := some raw1 }
  let n ← liftOpt o4.sample_size .keyError
  let dc := ask n (rawMags raw1)
  let o5u ←
    if dc then do
      let u ← liftOpt o4.units .keyError
      let se ← pqQuantitySE (numMag sd1) n (numUnit sd1) u.val
      pure ({ o4 with standard_error := some se }, ScoreTypeTag.TScore)
    else
      pure ({ o4 with median := some (npMedian (rawMags raw1)) },
            ScoreTypeTag.ZScore)
  let pp ← liftOpt o5u.1.protocol_parameters .keyError
  let t ← liftOpt pp.temperature .keyError
  let vi ← liftOpt pp.initial_resting_Vm .keyError
  let a ← liftOpt pp.current_amplitude .keyError
  return ⟨{ o5u.1 with celsius := some t, v_init := some vi, amp := some a },
          dc, o5u.2⟩

/-- `SomaRinTest.validate_observation` (lines 75-121): raise
`sciunit.ObservationError` when the guard of lines 85-97 fires, otherwise
run the mutation body.  `ask` stands for `NecessaryForHTMeans.ask`, imported
from `cerebunit.statistics.data_conditions`, a module not part of this
repository snapshot; per the spec it is an arbitrary deterministic boolean
function of the sample size and the raw data, so it is a parameter here. -/
def SomaRinTest.validate_observation (ask : ℕ → List ℚ → Bool)
    (observation : SomaObservation) : Except PyErr SomaRinState :=
  match observationCheckFails observation with
  | true => .error .observationError
  | false => validateBody ask observation

/-- The statistic carried by a score object: a t value (a float) or the
z result. -/
inductive StatVal
  | t (x : ℚ)
  | z (x : ZRes)
deriving DecidableEq

/-- The score object that `compute_score` returns: which score class was
instantiated, the statistic `x`, and the hypothesis test's `outcome` and
`statistics` attached to it (lines 163-165 and 169-171). -/
structure ScoreRec where
  score_class : ScoreTypeTag
  stat : StatVal
  description : String
  statistics : String
deriving DecidableEq

/-- `observation["raw_data"]` as `ZScoreForSignTest.compute` reads it from
the soma observation: a `KeyError` if the key is absent, else the array of
magnitudes. -/
def zObsOf (o : SomaObservation) : Except PyErr ZObservation :=
  match o.raw_data with
  | none => .error .keyError
  | some r => .ok ⟨rawMags r⟩

/-- Lines 160-165: the parametric path: `x = TScore.compute(observation,
prediction)`, then `HtestAboutMeans(self.observation, prediction, x)`, and a
`TScore` result carrying the test's outcome and statistics.
`TScore.compute`, `HtestAboutMeans` and `HtestAboutMedians` live in modules
that are not part of this repository snapshot; modelled from the spec:
arbitrary functions of their arguments (spec sections 4.2 and 4.4), taken
as parameters. -/
def tBranch (tcompute : SomaObservation → ℚ → ℚ)
    (hMO hMS : SomaObservation → ℚ → ℚ → String)
    (st : SomaRinState) (prediction : ℚ) : Except PyErr ScoreRec :=
  let x := tcompute st.observation prediction
  .ok ⟨.TScore, .t x, hMO st.observation prediction x,
       hMS st.observation prediction x⟩

/-- Lines 166-171: the non-parametric path: `x = ZScore.compute(observation,
prediction)` — the real `ZScoreForSignTest.compute` of zSignScore.py,
receiving the unit-carrying prediction scalar — and only if that call
returns, `HtestAboutMedians` and a `ZScore` result. -/
def zBranch (hZO hZS : SomaObservation → ℚ → ZRes → String)
    (st : SomaRinState) (prediction : ℚ) : Except PyErr ScoreRec :=
  match zObsOf st.observation with
  | .error e => .error e
  | .ok zo =>
    match ZScoreForSignTest.compute zo (.quantScalar prediction) with
    | .error e => .error e
    | .ok x => .ok ⟨.ZScore, .z x, hZO st.observation prediction x,
                    hZS st.observation prediction x⟩

/-- `SomaRinTest.compute_score` (lines 150-174): dispatch on the stored
`self.datacond` (`if self.datacond==True`).  `NecessaryForHTMeans.ask` is
not consulted here — it is not even an input of this function. -/
def SomaRinTest.compute_score (tcompute : SomaObservation → ℚ → ℚ)
    (hMO hMS : SomaObservation → ℚ → ℚ → String)
    (hZO hZS : SomaObservation → ℚ → ZRes → String)
    (st : SomaRinState) (prediction : ℚ) : Except PyErr ScoreRec :=
  if st.datacond then tBranch tcompute hMO hMS st prediction
  else zBranch hZO hZS st prediction

/-- Modelled from the spec: the sciunit framework (an external collaborator,
spec section 1) calls `validate_observation`, then `generate_prediction`
(the model run — in the source a wrapper around the external
`ExecutiveControl` launcher), then `compute_score`, in that fixed order,
and a raised error aborts the run before the later steps (spec sections
4.5 and 7).  `runModel` produces the prediction; the returned Bool records
whether the model was invoked. -/
def sciunitJudge (ask : ℕ → List ℚ → Bool)
    (tcompute : SomaObservation → ℚ → ℚ)
    (hMO hMS : SomaObservation → ℚ → ℚ → String)
    (hZO hZS : SomaObservation → ℚ → ZRes → String)
    (runModel : Unit → ℚ) (observation : SomaObservation) :
    Except PyErr ScoreRec × Bool :=
  match SomaRinTest.validate_observation ask observation with
  | .error e => (.error e, false)
  | .ok st =>
      (SomaRinTest.compute_score tcompute hMO hMS hZO hZS st (runModel ()),
       true)

/-- One of the required observation fields of the claim is absent. -/
def requiredFieldMissing (o : SomaObservation) : Bool :=
  o.mean.isNone || o.SD.isNone || o.sample_size.isNone || o.units.isNone ||
  o.raw_data.isNone ||
  (match o.protocol_parameters with
   | none => true
   | some pp =>
       pp.temperature.isNone || pp.initial_resting_Vm.isNone ||
       pp.current_amplitude.isNone || pp.current_unit.isNone)

/-- The unit strings do not carry the expected text (string equality, the
spec's reading). -/
def unitsTextMismatch (o : SomaObservation) : Bool :=
  (match o.units with
   | none => true
   | some u => !(u.val == "Mohm")) ||
  (match o.protocol_parameters with
   | none => true
   | some pp =>
       match pp.current_unit with
       | none => true
       | some cu => !(cu.val == "nA"))

/-- Well-formedness of the object model: a string object identical (same
`id`) to one of the module's interned literals carries that literal's
text — true of every real Python heap. -/
def literalIdFaithful (o : SomaObservation) : Bool :=
  (match o.units with
   | none => true
   | some u => !(pyIs u mohmLiteral) || (u.val == "Mohm")) &&
  (match o.protocol_parameters with
   | none => true
   | some pp =>
       match pp.current_unit with
       | none => true
       | some cu => !(pyIs cu nALiteral) || (cu.val == "nA"))

theorem checkFails_of_missing_or_mismatch (o : SomaObservation)
    (h : requiredFieldMissing o = true ∨
         (unitsTextMismatch o = true ∧ literalIdFaithful o = true)) :
    observationCheckFails o = true := by
  obtain ⟨oid, om, osd, osz, ou, orw, opp, ose, omed, oc, ov, oa⟩ := o
  unfold requiredFieldMissing unitsTextMismatch literalIdFaithful at h
  unfold observationCheckFails
  cases ou with
  | none => simp
  | some u =>
    cases opp with
    | none => simp
    | some pp =>
      obtain ⟨pt, pvi, pamp, pcu⟩ := pp
      cases pcu with
      | none => simp
      | some cu =>
        simp only [Option.isNone_none, Option.isNone_some, Bool.or_eq_true,
          Bool.and_eq_true, Bool.not_eq_true', beq_iff_eq, Bool.or_false,
          Bool.false_or] at h ⊢
        rcases h with h | ⟨h1, f1, f2⟩
        · tauto
        · rcases h1 with h1 | h1
          · have hp : pyIs u mohmLiteral = false := by
              cases hp : pyIs u mohmLiteral
              · rfl
              · rcases f1 with f1 | f1
                · rw [hp] at f1; exact absurd f1 (by simp)
                · rw [f1] at h1; simp at h1
            tauto
          · have hp : pyIs cu nALiteral = false := by
              cases hp : pyIs cu nALiteral
              · rfl
              · rcases f2 with f2 | f2
                · rw [hp] at f2; exact absurd f2 (by simp)
                · rw [f2] at h1; simp at h1
            tauto

/-- The observation record after the conversions of lines 99-105, for an
observation whose `mean`, `SD` and `raw_data` came in as bare JSON numbers. -/
def convertedObs (obs : SomaObservation) (m s : ℚ) (l : List ℚ) :
    SomaObservation :=
  { obs with
    units := some ohmLiteral,
    mean := some (.quant (m * 1000000) ("ohm")),
    SD := some (.quant (s * 1000000) ("ohm")),
    raw_data := some (.quantList (l.map (fun x => x * 1000000)) ("ohm")) }

/-- The state `validate_observation` produces on success, as a function of
the data-condition outcome `dc`. -/
def validateOutcome (dc : Bool) (obs : SomaObservation) (m s : ℚ) (n : ℕ)
    (l : List ℚ) (t vi a : ℚ) : SomaRinState :=
  let o4 := convertedObs obs m s l
  let o5 :=
    if dc then { o4 with standard_error := some ⟨s * 1000000, n, "ohm"⟩ }
    else { o4 with median := some (npMedian (l.map (fun x => x * 1000000))) }
  ⟨{ o5 with celsius := some t, v_init := some vi, amp := some a }, dc,
   if dc then .TScore else .ZScore⟩

theorem validate_success_eq (ask : ℕ → List ℚ → Bool) (obs : SomaObservation)
    (m s t vi a : ℚ) (n : ℕ) (l : List ℚ) (pp : ProtocolParams)
    (hm : obs.mean = some (.plain m)) (hs : obs.SD = some (.plain s))
    (hn : obs.sample_size = some n) (hl : obs.raw_data = some (.plainList l))
    (hpp : obs.protocol_parameters = some pp)
    (ht : pp.temperature = some t) (hvi : pp.initial_resting_Vm = some vi)
    (ha : pp.current_amplitude = some a)
    (hcheck : observationCheckFails obs = false) :
    SomaRinTest.validate_observation ask obs =
      .ok (validateOutcome (ask n (l.map (fun x => x * 1000000)))
             obs m s n l t vi a) := by
  unfold SomaRinTest.validate_observation
  rw [hcheck]
  cases hdc : ask n (l.map (fun x => x * 1000000)) with
  | true =>
    simp [validateBody, liftOpt, hm, hs, hn, hl, hpp, ht, hvi, ha, numTimes,
      pqQuantityNum, rawTimes, pqQuantityRaw, rawMags, numMag, numUnit,
      pqQuantitySE, validateOutcome, convertedObs, hdc, ohmLiteral,
      bind, Except.bind, Functor.map, Except.map, pure, Except.pure]
  | false =>
    simp [validateBody, liftOpt, hm, hs, hn, hl, hpp, ht, hvi, ha, numTimes,
      pqQuantityNum, rawTimes, pqQuantityRaw, rawMags, numMag, numUnit,
      pqQuantitySE, validateOutcome, convertedObs, hdc, ohmLiteral,
      bind, Except.bind, Functor.map, Except.map, pure, Except.pure]

def askTrue : ℕ → List ℚ → Bool := fun _ _ => true

def askFalse : ℕ → List ℚ → Bool := fun _ _ => false

def tcomputeEx : SomaObservation → ℚ → ℚ := fun _ _ => 0

def hMeansEx : SomaObservation → ℚ → ℚ → String := fun _ _ _ => ""

def hMediansEx : SomaObservation → ℚ → ZRes → String := fun _ _ _ => ""

/-- A complete observation as a caller would build it in source code: its
unit strings are the module's interned literals themselves. -/
def ppEx : ProtocolParams := ⟨some 37, some (-65), some (1/5), some nALiteral⟩

def obsEx : SomaObservation :=
  ⟨5, some (.plain 30), some (.plain 4), some 3, some mohmLiteral,
   some (.plainList [28, 30, 33]), some ppEx, none, none, none, none, none⟩

/-- The same observation with the `units` key deleted. -/
def obsNoUnits : SomaObservation := { obsEx with units := none }

/-- The same observation as a JSON loader would produce it: the unit strings
are equal in text to the literals but are fresh objects with their own
identities. -/
def ppJson : ProtocolParams := ⟨some 37, some (-65), some (1/5), some ⟨"nA", 42⟩⟩

def obsJson : SomaObservation :=
  ⟨6, some (.plain 30), some (.plain 4), some 3, some ⟨"Mohm", 41⟩,
   some (.plainList [28, 30, 33]), some ppJson, none, none, none, none, none⟩

/-- C5: an observation missing a required field (or, under faithfulness of
literal identities, one whose unit text mismatches the expectation) makes
`validate_observation` raise `ObservationError`, and the judge pipeline then
never invokes the model.  This is the evident intended reading of lines
84-97; the module as shipped cannot even reach it, since line 95 is a
`SyntaxError` (see the section comment above `PyStr`). -/
theorem c5_missing_field_aborts (ask : ℕ → List ℚ → Bool)
    (tcompute : SomaObservation → ℚ → ℚ)
    (hMO hMS : SomaObservation → ℚ → ℚ → String)
    (hZO hZS : SomaObservation → ℚ → ZRes → String)
    (runModel : Unit → ℚ) (obs : SomaObservation)
    (h : requiredFieldMissing obs = true ∨
         (unitsTextMismatch obs = true ∧ literalIdFaithful obs = true)) :
    SomaRinTest.validate_observation ask obs = .error .observationError ∧
    (sciunitJudge ask tcompute hMO hMS hZO hZS runModel obs).2 = false := by
  have hc := checkFails_of_missing_or_mismatch obs h
  have hv : SomaRinTest.validate_observation ask obs =
      .error .observationError := by
    unfold SomaRinTest.validate_observation
    rw [hc]
  refine ⟨hv, ?_⟩
  unfold sciunitJudge
  rw [hv]

theorem c5_missing_field_aborts_witness :
    SomaRinTest.validate_observation askTrue obsNoUnits =
      .error .observationError ∧
    (sciunitJudge askTrue tcomputeEx hMeansEx hMeansEx hMediansEx hMediansEx
      (fun _ => 0) obsNoUnits).2 = false :=
  c5_missing_field_aborts askTrue tcomputeEx hMeansEx hMeansEx hMediansEx
    hMediansEx (fun _ => 0) obsNoUnits (Or.inl (by decide))

/-- C6: the guard compares unit strings with `is not` (object identity,
lines 89 and 96), not string equality: an observation whose `units` is a
string equal in text to `"Mohm"` but a distinct object (as a JSON loader
produces) is rejected with `ObservationError`, so acceptance is not
governed by string equality as claimed. -/
theorem c6_identity_not_equality :
    (PyStr.mk ("Mohm") 41).val = mohmLiteral.val ∧
    pyIs ⟨"Mohm", 41⟩ mohmLiteral = false ∧
    obsJson.units = some ⟨"Mohm", 41⟩ ∧
    (PyStr.mk ("nA") 42).val = nALiteral.val ∧
    SomaRinTest.validate_observation askTrue obsJson =
      .error .observationError := by
  refine ⟨rfl, rfl, rfl, rfl, ?_⟩
  have hc : observationCheckFails obsJson = true := by decide
  unfold SomaRinTest.validate_observation
  rw [hc]

/-- C7: after `validate_observation` succeeds on a JSON-style observation,
the stored record's `units` is the string `"ohm"` and its `mean`, `SD` and
every `raw_data` element are the inputs multiplied by `1E6`, rewrapped as
quantities in ohm (lines 98-105). -/
theorem c7_unit_conversion (ask : ℕ → List ℚ → Bool) (obs : SomaObservation)
    (m s t vi a : ℚ) (n : ℕ) (l : List ℚ) (pp : ProtocolParams)
    (st : SomaRinState)
    (hm : obs.mean = some (.plain m)) (hs : obs.SD = some (.plain s))
    (hn : obs.sample_size = some n) (hl : obs.raw_data = some (.plainList l))
    (hpp : obs.protocol_parameters = some pp)
    (ht : pp.temperature = some t) (hvi : pp.initial_resting_Vm = some vi)
    (ha : pp.current_amplitude = some a)
    (hcheck : observationCheckFails obs = false)
    (hval : SomaRinTest.validate_observation ask obs = .ok st) :
    st.observation.units = some ohmLiteral ∧ ohmLiteral.val = "ohm" ∧
    st.observation.mean = some (.quant (m * 1000000) ("ohm")) ∧
    st.observation.SD = some (.quant (s * 1000000) ("ohm")) ∧
    st.observation.raw_data =
      some (.quantList (l.map (fun x => x * 1000000)) ("ohm")) := by
  rw [validate_success_eq ask obs m s t vi a n l pp hm hs hn hl hpp ht hvi ha
    hcheck] at hval
  injection hval with h
  subst h
  cases hdc : ask n (List.map (fun x => x * 1000000) l) <;>
    simp [validateOutcome, convertedObs, hdc, ohmLiteral]

def stExT : SomaRinState :=
  validateOutcome true obsEx 30 4 3 [28, 30, 33] 37 (-65) (1/5)

theorem c7_unit_conversion_witness :
    stExT.observation.units = some ohmLiteral ∧ ohmLiteral.val = "ohm" ∧
    stExT.observation.mean = some (.quant ((30 : ℚ) * 1000000) ("ohm")) ∧
    stExT.observation.SD = some (.quant ((4 : ℚ) * 1000000) ("ohm")) ∧
    stExT.observation.raw_data =
      some (.quantList (([28, 30, 33] : List ℚ).map (fun x => x * 1000000))
        ("ohm")) :=
  c7_unit_conversion askTrue obsEx 30 4 37 (-65) (1/5) 3 [28, 30, 33] ppEx
    stExT rfl rfl rfl rfl rfl rfl rfl rfl (by decide)
    (validate_success_eq askTrue obsEx 30 4 37 (-65) (1/5) 3 [28, 30, 33] ppEx
      rfl rfl rfl rfl rfl rfl rfl rfl (by decide))

/-- C8: the data condition is computed during `validate_observation` as the
single call `NecessaryForHTMeans.ask(sample_size, converted raw_data)`
(lines 106-107) and stored in `self.datacond`; on `true` the score type
becomes `TScore` and `standard_error = SD / sqrt(sample_size)` (the
converted `SD`, in ohm) is added, on `false` it becomes `ZScore` and the
median of the converted `raw_data` is added (lines 108-115); and
`compute_score` dispatches purely on the stored flag — the last conjunct
holds for an arbitrary state, `ask` not being an input of `compute_score`
at all, so the condition is never recomputed. -/
theorem c8_datacond_once_dispatch (ask : ℕ → List ℚ → Bool)
    (tcompute : SomaObservation → ℚ → ℚ)
    (hMO hMS : SomaObservation → ℚ → ℚ → String)
    (hZO hZS : SomaObservation → ℚ → ZRes → String)
    (obs : SomaObservation) (m s t vi a : ℚ) (n : ℕ) (l : List ℚ)
    (pp : ProtocolParams) (st : SomaRinState)
    (hm : obs.mean = some (.plain m)) (hs : obs.SD = some (.plain s))
    (hn : obs.sample_size = some n) (hl : obs.raw_data = some (.plainList l))
    (hpp : obs.protocol_parameters = some pp)
    (ht : pp.temperature = some t) (hvi : pp.initial_resting_Vm = some vi)
    (ha : pp.current_amplitude = some a)
    (hcheck : observationCheckFails obs = false)
    (hval : SomaRinTest.validate_observation ask obs = .ok st) :
    st.datacond = ask n (l.map (fun x => x * 1000000)) ∧
    (st.datacond = true → st.score_type = .TScore ∧
      st.observation.standard_error = some ⟨s * 1000000, n, "ohm"⟩) ∧
    (st.datacond = false → st.score_type = .ZScore ∧
      st.observation.median = some (npMedian (l.map (fun x => x * 1000000)))) ∧
    (∀ (st' : SomaRinState) (pred : ℚ),
      SomaRinTest.compute_score tcompute hMO hMS hZO hZS st' pred =
        if st'.datacond then tBranch tcompute hMO hMS st' pred
        else zBranch hZO hZS st' pred) := by
  rw [validate_success_eq ask obs m s t vi a n l pp hm hs hn hl hpp ht hvi ha
    hcheck] at hval
  injection hval with h
  subst h
  refine ⟨?_, ?_, ?_, fun st' pred => rfl⟩
  · simp [validateOutcome]
  · cases hdc : ask n (List.map (fun x => x * 1000000) l) <;>
      simp [validateOutcome, convertedObs, hdc]
  · cases hdc : ask n (List.map (fun x => x * 1000000) l) <;>
      simp [validateOutcome, convertedObs, hdc]

def stExZ : SomaRinState :=
  validateOutcome false obsEx 30 4 3 [28, 30, 33] 37 (-65) (1/5)

theorem c8_datacond_once_dispatch_witness :
    stExZ.datacond =
      askFalse 3 (([28, 30, 33] : List ℚ).map (fun x => x * 1000000)) ∧
    stExZ.score_type = .ZScore :=
  ⟨(c8_datacond_once_dispatch askFalse tcomputeEx hMeansEx hMeansEx hMediansEx
      hMediansEx obsEx 30 4 37 (-65) (1/5) 3 [28, 30, 33] ppEx stExZ
      rfl rfl rfl rfl rfl rfl rfl rfl (by decide)
      (validate_success_eq askFalse obsEx 30 4 37 (-65) (1/5) 3 [28, 30, 33]
        ppEx rfl rfl rfl rfl rfl rfl rfl rfl (by decide))).1,
   ((c8_datacond_once_dispatch askFalse tcomputeEx hMeansEx hMeansEx hMediansEx
      hMediansEx obsEx 30 4 37 (-65) (1/5) 3 [28, 30, 33] ppEx stExZ
      rfl rfl rfl rfl rfl rfl rfl rfl (by decide)
      (validate_success_eq askFalse obsEx 30 4 37 (-65) (1/5) 3 [28, 30, 33]
        ppEx rfl rfl rfl rfl rfl rfl rfl rfl (by decide))).2.2.1 rfl).1⟩

/-- C10: `self.observation = observation` (line 98) stores the caller's
record by reference — the record identity `objId` is unchanged — and the
subsequent updates mutate that same record in place: `units`, `mean`, `SD`
and `raw_data` are replaced, the branch adds `standard_error` or `median`,
and `celsius`, `v_init`, `amp` are added, while `sample_size` and
`protocol_parameters` are left untouched. -/
theorem c10_inplace_mutation (ask : ℕ → List ℚ → Bool)
    (obs : SomaObservation) (m s t vi a : ℚ) (n : ℕ) (l : List ℚ)
    (pp : ProtocolParams) (st : SomaRinState)
    (hm : obs.mean = some (.plain m)) (hs : obs.SD = some (.plain s))
    (hn : obs.sample_size = some n) (hl : obs.raw_data = some (.plainList l))
    (hpp : obs.protocol_parameters = some pp)
    (ht : pp.temperature = some t) (hvi : pp.initial_resting_Vm = some vi)
    (ha : pp.current_amplitude = some a)
    (hcheck : observationCheckFails obs = false)
    (hval : SomaRinTest.validate_observation ask obs = .ok st) :
    st.observation.objId = obs.objId ∧
    st.observation.sample_size = obs.sample_size ∧
    st.observation.protocol_parameters = obs.protocol_parameters ∧
    st.observation.units = some ohmLiteral ∧
    st.observation.mean = some (.quant (m * 1000000) ("ohm")) ∧
    st.observation.SD = some (.quant (s * 1000000) ("ohm")) ∧
    st.observation.raw_data =
      some (.quantList (l.map (fun x => x * 1000000)) ("ohm")) ∧
    st.observation.celsius = some t ∧
    st.observation.v_init = some vi ∧
    st.observation.amp = some a ∧
    (st.datacond = true →
      st.observation.standard_error = some ⟨s * 1000000, n, "ohm"⟩ ∧
      st.observation.median = obs.median) ∧
    (st.datacond = false →
      st.observation.median = some (npMedian (l.map (fun x => x * 1000000))) ∧
      st.observation.standard_error = obs.standard_error) := by
  rw [validate_success_eq ask obs m s t vi a n l pp hm hs hn hl hpp ht hvi ha
    hcheck] at hval
  injection hval with h
  subst h
  cases hdc : ask n (List.map (fun x => x * 1000000) l) <;>
    simp [validateOutcome, convertedObs, hdc]

theorem c10_inplace_mutation_witness :
    stExT.observation.objId = obsEx.objId ∧
    stExT.observation.sample_size = obsEx.sample_size ∧
    stExT.observation.protocol_parameters = obsEx.protocol_parameters :=
  let h := c10_inplace_mutation askTrue obsEx 30 4 37 (-65) (1/5) 3
    [28, 30, 33] ppEx stExT rfl rfl rfl rfl rfl rfl rfl rfl (by decide)
    (validate_success_eq askTrue obsEx 30 4 37 (-65) (1/5) 3 [28, 30, 33]
      ppEx rfl rfl rfl rfl rfl rfl rfl rfl (by decide))
  ⟨h.1, h.2.1, h.2.2.1⟩
